import Mathlib

set_option maxRecDepth 100000

/-
  Verification development for the stock-info backend's sync/broadcast core:
  the AMFI adapter's date and NAV-history handling (src/services/amfiService.js),
  the NSE adapter's batch fetch (src/services/nseService.js), the data-sync
  scheduler and batch reconciler (src/services/dataSyncService.js), and the
  WebSocket broadcast service (src/services/webSocketService.js).
  Strings are modelled as `List Char`; JS numbers as `Rat`/`Int`/`Nat`;
  JS Date values as year/month/day records.
-/

/-- A calendar date, the model of a valid JS `Date` at day granularity. -/
structure DateYMD where
  year : Nat
  month : Nat
  day : Nat
deriving DecidableEq

/-- Numeric key giving the chronological order of `DateYMD` values
(valid dates have month ≤ 12 and day ≤ 31, so the key orders them as a JS
Date timestamp would). -/
def dateKey (d : DateYMD) : Nat :=
  d.year * 10000 + d.month * 100 + d.day

/-- Gregorian leap-year test, as used by the JS `Date` calendar. -/
def isLeapYear (y : Nat) : Bool :=
  (y % 4 == 0 && y % 100 != 0) || (y % 400 == 0)

/-- Days in a month of the Gregorian calendar (month numbered 1-12). -/
def daysInMonth (y m : Nat) : Nat :=
  if m == 2 then (if isLeapYear y then 29 else 28)
  else if m == 4 || m == 6 || m == 9 || m == 11 then 30
  else 31

/-- Whether year/month/day form a real calendar date; this is the model of
the source's `!isNaN(new Date(isoDateString).getTime())` validity check on a
zero-padded ISO `YYYY-MM-DD` string. -/
def validYMD (y m d : Nat) : Bool :=
  1 ≤ m && m ≤ 12 && 1 ≤ d && d ≤ daysInMonth y m

/-- Split a character list on the dash character; the model of the JS
`dateString.split(hyphen)` used by `convertDDMMYYYYtoISO`. -/
def splitOnDash : List Char → List (List Char)
  | [] => [[]]
  | c :: cs =>
    if c = '-' then [] :: splitOnDash cs
    else
      match splitOnDash cs with
      | [] => [[c]]
      | g :: gs => (c :: g) :: gs

/-- Decimal value of a digit string (digits already validated). -/
def digitsToNat (l : List Char) : Nat :=
  l.foldl (fun n c => n * 10 + (c.toNat - '0'.toNat)) 0

/-- Model of JS `parseInt(s, 10)`: skip leading whitespace, take an optional
sign and the longest digit run; `none` models the `NaN` result when no digit
is found. -/
def jsParseInt (l : List Char) : Option Int :=
  let t := l.dropWhile Char.isWhitespace
  match t with
  | '-' :: rest =>
      let ds := rest.takeWhile Char.isDigit
      if ds.isEmpty then none else some (-(digitsToNat ds : Int))
  | '+' :: rest =>
      let ds := rest.takeWhile Char.isDigit
      if ds.isEmpty then none else some (digitsToNat ds : Int)
  | rest =>
      let ds := rest.takeWhile Char.isDigit
      if ds.isEmpty then none else some (digitsToNat ds : Int)

namespace AMFIService

/-- AMFIService.convertDDMMYYYYtoISO: split the string on dashes; with
exactly three parts, parse day, month, year as base-10 integers, check
1 ≤ day ≤ 31, 1 ≤ month ≤ 12, 1900 ≤ year ≤ 2100, build the ISO
`YYYY-MM-DD` string and return its Date when that string is a valid date;
return null (`none`) in every other case, including a thrown exception. -/
def convertDDMMYYYYtoISO (s : List Char) : Option DateYMD :=
  match splitOnDash s with
  | [day, month, year] =>
    match jsParseInt day, jsParseInt month, jsParseInt year with
    | some dayNum, some monthNum, some yearNum =>
      if 1 ≤ dayNum && dayNum ≤ 31 && 1 ≤ monthNum && monthNum ≤ 12
          && 1900 ≤ yearNum && yearNum ≤ 2100 then
        if validYMD yearNum.toNat monthNum.toNat dayNum.toNat then
          some ⟨yearNum.toNat, monthNum.toNat, dayNum.toNat⟩
        else none
      else none
    | _, _, _ => none
  | _ => none

end AMFIService

/-- Model of the JS `new Date(string)` constructor restricted to the date
strings this code path can feed it: an ISO `YYYY-MM-DD` string (4-2-2 digit
groups) parses to that calendar date when valid; every other string is
modelled as an Invalid Date (`none`). -/
def jsDateParse (s : List Char) : Option DateYMD :=
  match splitOnDash s with
  | [y, m, d] =>
    if (y.length == 4 && y.all Char.isDigit)
        && (m.length == 2 && m.all Char.isDigit)
        && (d.length == 2 && d.all Char.isDigit) then
      if validYMD (digitsToNat y) (digitsToNat m) (digitsToNat d) then
        some ⟨digitsToNat y, digitsToNat m, digitsToNat d⟩
      else none
    else none
  | _ => none

/-- Strip leading and trailing whitespace; the model of JS `String.trim`. -/
def trimChars (l : List Char) : List Char :=
  ((l.dropWhile Char.isWhitespace).reverse.dropWhile Char.isWhitespace).reverse

/-- Whether a character group matches one `(\d{1,2})` group of the source's
`^(\d{1,2})-(\d{1,2})-(\d{4})$` pattern. -/
def isDigits12 (l : List Char) : Bool :=
  (l.length == 1 || l.length == 2) && l.all Char.isDigit

namespace AMFIService

/-- Second stage of AMFIService.parseValidDate after its DD-MM-YYYY branch
has failed: try `new Date(dateString)` as-is, and if that is also invalid
fall back to the current date (`now`). -/
def parseValidDateFallback (now : DateYMD) (s : List Char) : DateYMD :=
  match jsDateParse s with
  | some d => d
  | none => now

/-- AMFIService.parseValidDate: a falsy input (null, undefined, the empty
string) yields the current date; otherwise the trimmed string is matched
against `^(\d{1,2})-(\d{1,2})-(\d{4})$` and on a match the re-ordered ISO
`YYYY-MM-DD` string is accepted when it is a valid date; otherwise the
string is parsed as-is, and as a last resort the current date is returned.
This function never fails: every input produces a valid date. -/
def parseValidDate (now : DateYMD) (input : Option (List Char)) : DateYMD :=
  match input with
  | none => now
  | some raw =>
    if raw.isEmpty then now
    else
      let s := trimChars raw
      match splitOnDash s with
      | [day, month, year] =>
        if isDigits12 day && isDigits12 month
            && (year.length == 4 && year.all Char.isDigit) then
          if validYMD (digitsToNat year) (digitsToNat month) (digitsToNat day) then
            ⟨digitsToNat year, digitsToNat month, digitsToNat day⟩
          else parseValidDateFallback now s
        else parseValidDateFallback now s
      | _ => parseValidDateFallback now s

/-- One raw entry of the upstream NAV feed: `date` is the raw date string
(`none` models a null/undefined field), `nav` holds the value of JS
`parseFloat(item.nav)` with `none` modelling a `NaN` result. -/
structure NavInput where
  date : Option (List Char)
  nav : Option Rat

/-- One stored NAV history point: a (date, value) pair. -/
structure NavEntry where
  date : DateYMD
  nav : Rat
deriving DecidableEq

/-- AMFIService.formatNavHistory: a null or non-array input yields the empty
list; otherwise the first 365 raw entries are mapped (date through
`convertDDMMYYYYtoISO`, then through `parseValidDate` when that returned
null; value through `parseFloat(item.nav) || 0`) and the result is filtered
to entries whose value is positive. The source's date part of the filter
(`item.date instanceof Date && !isNaN(item.date.getTime())`) always holds
because `parseValidDate` always returns a valid date. -/
def formatNavHistory (now : DateYMD) (navData : Option (List NavInput)) :
    List NavEntry :=
  match navData with
  | none => []
  | some l =>
    ((l.take 365).map (fun item =>
      let converted :=
        match item.date with
        | none => none
        | some s => convertDDMMYYYYtoISO s
      let validDate :=
        match converted with
        | some d => d
        | none => parseValidDate now item.date
      let validNav := item.nav.getD 0
      (⟨validDate, validNav⟩ : NavEntry))).filter (fun e => decide (0 < e.nav))

/-- The record shape returned by AMFIService.getMutualFundData (network and
string-massaging details of the fetch are not modelled; the batch layer
treats the single fetch as an oracle that either returns a record or
throws). -/
structure FundData where
  schemeCode : String
  schemeName : String
  nav : Rat
  previousNav : Rat
  navChange : Rat
  navChangePercent : Rat
  navDate : DateYMD
  navHistory : List NavEntry
  lastUpdated : Int
deriving DecidableEq

/-- The `.catch(error => null)` wrapper placed around each
getMutualFundData call inside getMultipleMutualFunds. -/
def getMutualFundDataCaught (fetch : String → Except String FundData)
    (schemeCode : String) : Option FundData :=
  match fetch schemeCode with
  | Except.ok r => some r
  | Except.error _ => none

/-- AMFIService.getMultipleMutualFunds: fetch every scheme code with a
per-code catch that turns a failure into null, then filter the nulls out of
the combined result. The function always returns a plain list: a partial
batch is a success and no per-code failure reaches the caller. -/
def getMultipleMutualFunds (fetch : String → Except String FundData)
    (schemeCodes : List String) : List FundData :=
  ((schemeCodes.map (getMutualFundDataCaught fetch)).filterMap id)

end AMFIService

/-- One point of a stock's stored price history, as built by
NSEService.formatPriceHistory. -/
structure PricePoint where
  date : Int
  priceOpen : Rat
  priceHigh : Rat
  priceLow : Rat
  priceClose : Rat
  volume : Nat
deriving DecidableEq

namespace NSEService

/-- The record shape returned by NSEService.getStockData (the network fetch
itself is treated as an oracle by the batch layer). -/
structure StockData where
  ticker : String
  name : String
  currentPrice : Rat
  previousClose : Rat
  dayChange : Rat
  dayChangePercent : Rat
  volume : Nat
  high52Week : Option Rat
  low52Week : Option Rat
  marketCap : Option Rat
  lastUpdated : Int
  priceHistory : List PricePoint
deriving DecidableEq

/-- The `.catch(error => null)` wrapper placed around each getStockData
call inside getMultipleStocks. -/
def getStockDataCaught (fetch : String → Except String StockData)
    (ticker : String) : Option StockData :=
  match fetch ticker with
  | Except.ok r => some r
  | Except.error _ => none

/-- NSEService.getMultipleStocks: fetch every ticker with a per-ticker
catch that turns a failure into null, then filter the nulls out of the
combined result. A partial batch is a success and no per-ticker failure
reaches the caller. -/
def getMultipleStocks (fetch : String → Except String StockData)
    (tickers : List String) : List StockData :=
  ((tickers.map (getStockDataCaught fetch)).filterMap id)

end NSEService

/-- Update the first element of a list satisfying the predicate, leaving the
rest unchanged; the model of a Mongo `findOne` followed by an update of the
found document (and of `findOneAndUpdate` with `upsert: false`): when no
element matches, the list is returned unchanged and nothing is inserted. -/
def updateFirst {α : Type} (p : α → Bool) (f : α → α) : List α → List α
  | [] => []
  | x :: xs => if p x then f x :: xs else x :: updateFirst p f xs

/-- Model of a Mongo `$push` with `$each: batch` and `$slice: -cap`: the
batch is appended to the stored array and only the last `cap` elements of
the concatenation are kept (elements are dropped from the front). -/
def pushEachSlice {α : Type} (cap : Nat) (hist batch : List α) : List α :=
  (hist ++ batch).drop ((hist ++ batch).length - cap)

namespace DataSyncService

/-- The mutable fields of the DataSyncService singleton: the single-flight
flag and the last-success timestamps. -/
structure SchedState where
  isRunning : Bool
  lastStockSync : Option Int
  lastMutualFundSync : Option Int
deriving DecidableEq

/-- Guard behaviour of DataSyncService.syncStockData. Parameters: `tickers`
is the active-ticker list read from the store, `throws` says whether the
body raises before reaching the final timestamp assignment, `now` is the
wall clock. Result: the post-state and whether the reconciliation body was
entered. The source checks `isRunning` first and returns immediately when
it is set; otherwise it sets the flag, runs the body (whose early empty
return and catch-all are both inside the try), and clears the flag in a
finally block, so the flag is false after every executed run. -/
def syncStockData (s : SchedState) (tickers : List String) (throws : Bool)
    (now : Int) : SchedState × Bool :=
  if s.isRunning then (s, false)
  else if tickers.isEmpty then ({ s with isRunning := false }, true)
  else if throws then ({ s with isRunning := false }, true)
  else ({ s with isRunning := false, lastStockSync := some now }, true)

/-- Guard behaviour of DataSyncService.syncMutualFundData, with the same
parameter reading as `syncStockData`. The source contains no `isRunning`
check and no assignment to it: the body always runs and the flag is never
touched, on the success, empty and throwing paths alike. -/
def syncMutualFundData (s : SchedState) (schemeCodes : List String)
    (throws : Bool) (now : Int) : SchedState × Bool :=
  if schemeCodes.isEmpty then (s, true)
  else if throws then (s, true)
  else ({ s with lastMutualFundSync := some now }, true)

/-- Observable step of a reconciliation run: a batch fetch call carrying
its key chunk, or an inter-batch sleep of the given milliseconds. -/
inductive SyncEvent where
  | fetchBatch (keys : List String)
  | sleepMs (ms : Nat)
deriving DecidableEq

/-- Body of the batch loop shared by syncStockData and syncMutualFundData:
`for (let i = 0; i < keys.length; i += B) { const batch = keys.slice(i, i+B);
try { fetch(batch); ...; await sleep(delay); } catch { log } }`
with batch size `b + 1`. `fails` says whether a chunk's fetch throws; a
throw is caught after the fetch call was issued and skips that chunk's
sleep. `fuel` makes the recursion structural; every step consumes at least
one key, so starting the loop with `fuel = keys.length` never exhausts it
and the fuel-out arm is unreachable. -/
def reconcileGo (b delay : Nat) (fails : List String → Bool) :
    Nat → List String → List SyncEvent
  | _, [] => []
  | 0, _ :: _ => []
  | fuel+1, x :: xs =>
    let batch := x :: xs.take b
    SyncEvent.fetchBatch batch ::
      (if fails batch then reconcileGo b delay fails fuel (xs.drop b)
       else SyncEvent.sleepMs delay :: reconcileGo b delay fails fuel (xs.drop b))

/-- The event trace of one reconciliation run over `keys` with batch size
`B` and inter-batch delay `delay` milliseconds. The `B = 0` case cannot
occur in the source (B is the literal 10 or 5) and is mapped to the empty
trace for totality. -/
def reconcileTrace (B delay : Nat) (fails : List String → Bool)
    (keys : List String) : List SyncEvent :=
  match B with
  | 0 => []
  | b+1 => reconcileGo b delay fails keys.length keys

/-- The trace of one stock reconciliation run over the given tickers:
batches of 10, a 2000 ms pause after each successfully processed batch. -/
def stockSyncTrace (fails : List String → Bool) (tickers : List String) :
    List SyncEvent :=
  reconcileTrace 10 2000 fails tickers

/-- The trace of one mutual-fund reconciliation run over the given scheme
codes: batches of 5, a 3000 ms pause after each successfully processed
batch. -/
def mutualFundSyncTrace (fails : List String → Bool) (codes : List String) :
    List SyncEvent :=
  reconcileTrace 5 3000 fails codes

/-- The key chunks carried by the fetch calls of a trace, in call order. -/
def fetchBatches : List SyncEvent → List (List String)
  | [] => []
  | SyncEvent.fetchBatch c :: es => c :: fetchBatches es
  | SyncEvent.sleepMs _ :: es => fetchBatches es

/-- The number of sleep events in a trace. -/
def sleepCount : List SyncEvent → Nat
  | [] => 0
  | SyncEvent.fetchBatch _ :: es => sleepCount es
  | SyncEvent.sleepMs _ :: es => sleepCount es + 1

/-- A stored Stock document, restricted to the fields the sync and
broadcast paths read or write (descriptive fields such as name, sector and
industry are omitted). -/
structure StockDoc where
  ticker : String
  currentPrice : Rat
  previousClose : Rat
  dayChange : Rat
  dayChangePercent : Rat
  volume : Nat
  high52Week : Option Rat
  low52Week : Option Rat
  marketCap : Option Rat
  priceHistory : List PricePoint
  lastUpdated : Int
  isPennyStock : Bool
  isActive : Bool
deriving DecidableEq

/-- The update document DataSyncService.updateStockInDatabase applies to
the found stock: scalar fields overwritten, the fetched price history
appended with `$push`/`$each` and truncated with `$slice: -90`. -/
def applyStockUpdate (d : NSEService.StockData) (now : Int)
    (doc : StockDoc) : StockDoc :=
  { doc with
    currentPrice := d.currentPrice
    previousClose := d.previousClose
    dayChange := d.dayChange
    dayChangePercent := d.dayChangePercent
    volume := d.volume
    high52Week := d.high52Week
    low52Week := d.low52Week
    marketCap := d.marketCap
    priceHistory := pushEachSlice 90 doc.priceHistory d.priceHistory
    lastUpdated := now }

/-- DataSyncService.updateStockInDatabase: find the first stored stock with
the fetched ticker and apply the update to it; when none exists, log a
warning and leave the store unchanged (no insert). -/
def updateStockInDatabase (db : List StockDoc) (d : NSEService.StockData)
    (now : Int) : List StockDoc :=
  updateFirst (fun doc => doc.ticker == d.ticker) (applyStockUpdate d now) db

/-- A stored MutualFund document, restricted to the fields the sync path
reads or writes. -/
structure FundDoc where
  schemeCode : String
  nav : Rat
  previousNav : Rat
  navDate : DateYMD
  navHistory : List AMFIService.NavEntry
  lastUpdated : Int
  isActive : Bool
deriving DecidableEq

/-- The update document DataSyncService.updateMutualFundInDatabase applies
to the found fund: scalar fields overwritten, the fetched NAV history
appended with `$push`/`$each` and truncated with `$slice: -365`. -/
def applyFundUpdate (d : AMFIService.FundData) (now : Int)
    (doc : FundDoc) : FundDoc :=
  { doc with
    nav := d.nav
    previousNav := d.previousNav
    navDate := d.navDate
    navHistory := pushEachSlice 365 doc.navHistory d.navHistory
    lastUpdated := now }

/-- DataSyncService.updateMutualFundInDatabase: find the first stored fund
with the fetched scheme code and apply the update to it; when none exists,
log a warning and leave the store unchanged (no insert). -/
def updateMutualFundInDatabase (db : List FundDoc)
    (d : AMFIService.FundData) (now : Int) : List FundDoc :=
  updateFirst (fun doc => doc.schemeCode == d.schemeCode)
    (applyFundUpdate d now) db

/-- The document DataSyncService.addPennyStockToDatabase builds from a
fetched record before saving it (spread of the fetched data plus the
penny-stock markers; guessed sector and industry are among the omitted
descriptive fields). -/
def docOfStockData (d : NSEService.StockData) : StockDoc :=
  { ticker := d.ticker
    currentPrice := d.currentPrice
    previousClose := d.previousClose
    dayChange := d.dayChange
    dayChangePercent := d.dayChangePercent
    volume := d.volume
    high52Week := d.high52Week
    low52Week := d.low52Week
    marketCap := d.marketCap
    priceHistory := d.priceHistory
    lastUpdated := d.lastUpdated
    isPennyStock := true
    isActive := true }

/-- DataSyncService.addPennyStockToDatabase (the discovery path's write):
insert the fetched record as a new document only when no document with its
ticker exists; otherwise leave the store unchanged. -/
def addPennyStockToDatabase (db : List StockDoc)
    (d : NSEService.StockData) : List StockDoc :=
  if db.any (fun doc => doc.ticker == d.ticker) then db
  else db ++ [docOfStockData d]

end DataSyncService

namespace WebSocketService

/-- The per-connection metadata held in the service's client registry. The
subscription set is modelled as an insertion-ordered duplicate-free list. -/
structure ClientInfo where
  id : String
  subscribedTickers : List String
  isAlive : Bool
deriving DecidableEq

/-- A server-to-client frame (the fields the broadcast cycle writes). -/
inductive WsFrame where
  | connectionAck (clientId : String)
  | priceUpdate (ticker : String) (currentPrice dayChange dayChangePercent : Rat)
      (volume : Nat)
  | errorMsg (msg : String)
deriving DecidableEq

/-- JS `Set.add` on the insertion-ordered list model: append the element
only when it is not already present. -/
def setAdd (s : List String) (t : String) : List String :=
  if t ∈ s then s else s ++ [t]

/-- The union of all connections' subscribed tickers, accumulated in
registry order as fetchAndBroadcastUpdates builds its `Set`. -/
def subscribedUnion (clients : List ClientInfo) : List String :=
  clients.foldl (fun acc c => c.subscribedTickers.foldl setAdd acc) []

/-- WebSocketService.broadcastStockUpdate: build one price_update frame
from the fetched record and send it to every registered connection whose
subscription set contains the record's ticker; result is the list of
(client id, frame) sends in registry order. -/
def broadcastStockUpdate (clients : List ClientInfo)
    (d : NSEService.StockData) : List (String × WsFrame) :=
  (clients.filter (fun c => d.ticker ∈ c.subscribedTickers)).map
    (fun c => (c.id,
      WsFrame.priceUpdate d.ticker d.currentPrice d.dayChange
        d.dayChangePercent d.volume))

/-- WebSocketService.updateStockInDatabase: `findOneAndUpdate` on the
ticker with `upsert: false` — scalar price fields only, no history
append, and no insert when the ticker is absent. -/
def updateStockInDatabase (db : List DataSyncService.StockDoc)
    (d : NSEService.StockData) (now : Int) : List DataSyncService.StockDoc :=
  updateFirst (fun doc => doc.ticker == d.ticker)
    (fun doc =>
      { doc with
        currentPrice := d.currentPrice
        previousClose := d.previousClose
        dayChange := d.dayChange
        dayChangePercent := d.dayChangePercent
        volume := d.volume
        lastUpdated := now })
    db

/-- WebSocketService.fetchAndBroadcastUpdates: compute the union of all
subscribed tickers; when it is empty skip the cycle; otherwise fetch the
union through NSEService.getMultipleStocks and, for each returned record in
order, broadcast it and then merge it into the store. Result: the frames
sent during the cycle and the post-cycle store. -/
def fetchAndBroadcastUpdates (fetch : String → Except String NSEService.StockData)
    (clients : List ClientInfo) (db : List DataSyncService.StockDoc)
    (now : Int) : List (String × WsFrame) × List DataSyncService.StockDoc :=
  let u := subscribedUnion clients
  if u.isEmpty then ([], db)
  else
    let updatedStocks := NSEService.getMultipleStocks fetch u
    (updatedStocks.flatMap (broadcastStockUpdate clients),
     updatedStocks.foldl (fun acc d => updateStockInDatabase acc d now) db)

end WebSocketService

/-- Step equation of the ceiling-division batch count: processing one batch
of a nonempty key list and recursing on the rest preserves the ceiling
count `ceil(N / (b+1)) = (N + b) / (b+1)`. -/
theorem ceil_div_step (n b : Nat) :
    (n + 1 + b) / (b + 1) = ((n - b) + b) / (b + 1) + 1 := by
  rcases Nat.le_total b n with h | h
  · rw [Nat.sub_add_cancel h]
    have h3 : n + 1 + b = n + (b + 1) := by omega
    rw [h3, Nat.add_div_right _ (by omega : 0 < b + 1)]
  · have h0 : n - b = 0 := by omega
    have h1 : b / (b + 1) = 0 := Nat.div_eq_of_lt (by omega)
    have h2 : n / (b + 1) = 0 := Nat.div_eq_of_lt (by omega)
    have h3 : n + 1 + b = (b + 1) + n := by omega
    rw [h3, Nat.add_div_left _ (by omega : 0 < b + 1), h0, Nat.zero_add, h1, h2]

/-- In a pairwise-related list, every element of the prefix removed by
`take` is related to every element of the remaining `drop` suffix. -/
theorem pairwise_take_drop {α : Type} {R : α → α → Prop} {l : List α}
    (h : List.Pairwise R l) (k : Nat) :
    ∀ x ∈ l.take k, ∀ y ∈ l.drop k, R x y := by
  have h2 : List.Pairwise R (l.take k ++ l.drop k) := by
    rwa [List.take_append_drop]
  exact fun x hx y hy => (List.pairwise_append.mp h2).2.2 x hx y hy

/-- Filtering after a map keeps as many elements as filtering the source
through the composed predicate. -/
theorem length_map_filter {α β : Type} (f : α → β) (p : β → Bool)
    (l : List α) :
    ((l.map f).filter p).length = (l.filter (fun a => p (f a))).length := by
  induction l with
  | nil => rfl
  | cons x xs ih =>
    simp only [List.map_cons, List.filter_cons]
    cases h : p (f x) <;> simp [h, ih]

/-- Collapsing the map-then-filterMap-id pattern of the source's
`results.filter(r => r !== null)` over mapped promises. -/
theorem filterMap_id_map {α β : Type} (g : α → Option β) (l : List α) :
    (l.map g).filterMap id = l.filterMap g := by
  induction l with
  | nil => rfl
  | cons x xs ih => cases h : g x <;> simp [List.filterMap_cons, h, ih]

/-- `updateFirst` never changes the image of a key function the update
preserves: the store's key sequence is invariant under the update. -/
theorem updateFirst_map_eq {α β : Type} (key : α → β) (p : α → Bool)
    (f : α → α) (hf : ∀ a, key (f a) = key a) :
    ∀ l : List α, (updateFirst p f l).map key = l.map key := by
  intro l
  induction l with
  | nil => rfl
  | cons x xs ih => cases h : p x <;> simp [updateFirst, h, hf, ih]

/-- When no element matches, `updateFirst` is the identity. -/
theorem updateFirst_no_match {α : Type} (p : α → Bool) (f : α → α) :
    ∀ l : List α, (∀ x ∈ l, p x = false) → updateFirst p f l = l := by
  intro l
  induction l with
  | nil => intro _; rfl
  | cons x xs ih =>
    intro h
    have hx := h x (List.mem_cons_self x xs)
    simp [updateFirst, hx, ih (fun y hy => h y (List.mem_cons_of_mem x hy))]

namespace DataSyncService

/-- The batch loop issues one fetch call per `b+1`-sized chunk: with enough
fuel, the number of fetch events is `ceil(N / (b+1))`, for every failure
pattern. -/
theorem reconcileGo_fetchBatches_length (b δ : Nat)
    (fails : List String → Bool) :
    ∀ (fuel : Nat) (keys : List String), keys.length ≤ fuel →
      (fetchBatches (reconcileGo b δ fails fuel keys)).length
        = (keys.length + b) / (b + 1) := by
  intro fuel
  induction fuel with
  | zero =>
    intro keys h
    have hk : keys = [] := List.eq_nil_of_length_eq_zero (Nat.le_zero.mp h)
    subst hk
    simp [reconcileGo, fetchBatches, Nat.div_eq_of_lt (Nat.lt_succ_self b)]
  | succ n ih =>
    intro keys h
    cases keys with
    | nil => simp [reconcileGo, fetchBatches, Nat.div_eq_of_lt (Nat.lt_succ_self b)]
    | cons x xs =>
      have hxs : xs.length ≤ n := by
        simp only [List.length_cons] at h
        omega
      have hlen : (xs.drop b).length ≤ n := by
        simp only [List.length_drop]
        omega
      have ihv := ih (xs.drop b) hlen
      rw [List.length_drop] at ihv
      cases hf : fails (x :: xs.take b) <;>
        simp only [reconcileGo, hf, if_true, if_false, Bool.false_eq_true,
          ite_true, ite_false, fetchBatches, List.length_cons, ihv] <;>
      · rw [ceil_div_step xs.length b]

/-- Every fetch call of the batch loop carries at most `b+1` keys. -/
theorem reconcileGo_chunk_le (b δ : Nat) (fails : List String → Bool) :
    ∀ (fuel : Nat) (keys : List String) (c : List String),
      c ∈ fetchBatches (reconcileGo b δ fails fuel keys) →
        c.length ≤ b + 1 := by
  intro fuel
  induction fuel with
  | zero =>
    intro keys c hc
    cases keys <;> simp [reconcileGo, fetchBatches] at hc
  | succ n ih =>
    intro keys c hc
    cases keys with
    | nil => simp [reconcileGo, fetchBatches] at hc
    | cons x xs =>
      cases hf : fails (x :: xs.take b) <;>
        simp only [reconcileGo, hf, if_true, if_false, Bool.false_eq_true,
          ite_true, ite_false, fetchBatches, List.mem_cons] at hc <;>
      · rcases hc with rfl | hc
        · simp only [List.length_cons, List.length_take]
          omega
        · exact ih _ _ hc

/-- When no batch fails, the loop sleeps once after every fetch call,
including the last: the sleep count equals the fetch count. -/
theorem reconcileGo_sleepCount (b δ : Nat) :
    ∀ (fuel : Nat) (keys : List String),
      sleepCount (reconcileGo b δ (fun _ => false) fuel keys)
        = (fetchBatches (reconcileGo b δ (fun _ => false) fuel keys)).length := by
  intro fuel
  induction fuel with
  | zero => intro keys; cases keys <;> simp [reconcileGo, sleepCount, fetchBatches]
  | succ n ih =>
    intro keys
    cases keys with
    | nil => simp [reconcileGo, sleepCount, fetchBatches]
    | cons x xs => simp [reconcileGo, sleepCount, fetchBatches, ih]

/-- Fetch-count form of `reconcileGo_fetchBatches_length` for a full run
(fuel = key count). -/
theorem reconcileTrace_fetchBatches_length (b δ : Nat)
    (fails : List String → Bool) (keys : List String) :
    (fetchBatches (reconcileTrace (b+1) δ fails keys)).length
      = (keys.length + b) / (b + 1) :=
  reconcileGo_fetchBatches_length b δ fails keys.length keys le_rfl

end DataSyncService

/-- C1: for every key list and the sync batch sizes (10 for stocks, 5 for
mutual funds), one run issues exactly ceil(N/B) fetch calls of at most B
keys each — but the claim that the loop sleeps only between consecutive
fetch calls and not after the last is false: the `await sleep(...)` sits
inside the loop body after each fetch, so the run with the single key "A"
ends its trace with a sleep event after its only fetch call, and the sleep
count equals the fetch count instead of being one less. -/
theorem c1_counterexample :
    DataSyncService.stockSyncTrace (fun _ => false) ["A"]
      = [DataSyncService.SyncEvent.fetchBatch ["A"],
         DataSyncService.SyncEvent.sleepMs 2000]
  ∧ DataSyncService.sleepCount
      (DataSyncService.stockSyncTrace (fun _ => false) ["A"]) = 1
  ∧ (DataSyncService.fetchBatches
      (DataSyncService.stockSyncTrace (fun _ => false) ["A"])).length = 1
  ∧ (DataSyncService.stockSyncTrace (fun _ => false) ["A"]).getLast?
      = some (DataSyncService.SyncEvent.sleepMs 2000) := by decide

/-- C1 amended: for every key list of length N, the stock run issues
exactly ceil(N/10) batch fetch calls and the mutual-fund run exactly
ceil(N/5), each call carrying at most B keys, whatever the batch failure
pattern; and on a run without batch failures the loop sleeps the
inter-batch delay after every fetch call including the last (a failed
batch skips its sleep), so the sleep count equals the fetch count. -/
theorem c1_batching :
    (∀ (fails : List String → Bool) (tickers : List String),
        (DataSyncService.fetchBatches
            (DataSyncService.stockSyncTrace fails tickers)).length
          = (tickers.length + 9) / 10)
  ∧ (∀ (fails : List String → Bool) (tickers : List String),
        ∀ c ∈ DataSyncService.fetchBatches
            (DataSyncService.stockSyncTrace fails tickers), c.length ≤ 10)
  ∧ (∀ tickers : List String,
        DataSyncService.sleepCount
            (DataSyncService.stockSyncTrace (fun _ => false) tickers)
          = (tickers.length + 9) / 10)
  ∧ (∀ (fails : List String → Bool) (codes : List String),
        (DataSyncService.fetchBatches
            (DataSyncService.mutualFundSyncTrace fails codes)).length
          = (codes.length + 4) / 5)
  ∧ (∀ (fails : List String → Bool) (codes : List String),
        ∀ c ∈ DataSyncService.fetchBatches
            (DataSyncService.mutualFundSyncTrace fails codes), c.length ≤ 5)
  ∧ (∀ codes : List String,
        DataSyncService.sleepCount
            (DataSyncService.mutualFundSyncTrace (fun _ => false) codes)
          = (codes.length + 4) / 5) := by
  refine ⟨?_, ?_, ?_, ?_, ?_, ?_⟩
  · exact fun fails tickers =>
      DataSyncService.reconcileTrace_fetchBatches_length 9 2000 fails tickers
  · exact fun fails tickers c hc =>
      DataSyncService.reconcileGo_chunk_le 9 2000 fails tickers.length tickers c hc
  · intro tickers
    rw [show DataSyncService.stockSyncTrace (fun _ => false) tickers
          = DataSyncService.reconcileGo 9 2000 (fun _ => false)
              tickers.length tickers from rfl,
        DataSyncService.reconcileGo_sleepCount 9 2000 tickers.length tickers,
        DataSyncService.reconcileGo_fetchBatches_length 9 2000 _
          tickers.length tickers le_rfl]
  · exact fun fails codes =>
      DataSyncService.reconcileTrace_fetchBatches_length 4 3000 fails codes
  · exact fun fails codes c hc =>
      DataSyncService.reconcileGo_chunk_le 4 3000 fails codes.length codes c hc
  · intro codes
    rw [show DataSyncService.mutualFundSyncTrace (fun _ => false) codes
          = DataSyncService.reconcileGo 4 3000 (fun _ => false)
              codes.length codes from rfl,
        DataSyncService.reconcileGo_sleepCount 4 3000 codes.length codes,
        DataSyncService.reconcileGo_fetchBatches_length 4 3000 _
          codes.length codes le_rfl]

/-- C1 witness: the batch-size bound of `c1_batching` applied to the
concrete single-chunk run over ["A"], whose only chunk is ["A"] itself. -/
theorem c1_batching_witness : (["A"] : List String).length ≤ 10 :=
  c1_batching.2.1 (fun _ => false) ["A"] ["A"] (by decide)

/-- C2: the stock-sync run guard works as specified: a trigger arriving
while `isRunning` is true returns immediately without entering the
reconciliation body and leaves the state untouched (so the flag stays
true); and every run entered with the flag down ends with the flag down
again, on the empty-store, throwing and successful paths alike, because
the reset sits in a finally block. -/
theorem c2_run_guard :
    (∀ (s : DataSyncService.SchedState) (tickers : List String)
        (throws : Bool) (now : Int), s.isRunning = true →
        DataSyncService.syncStockData s tickers throws now = (s, false))
  ∧ (∀ (s : DataSyncService.SchedState) (tickers : List String)
        (throws : Bool) (now : Int), s.isRunning = false →
        (DataSyncService.syncStockData s tickers throws now).1.isRunning = false
      ∧ (DataSyncService.syncStockData s tickers throws now).2 = true) := by
  constructor
  · intro s tickers throws now h
    simp [DataSyncService.syncStockData, h]
  · intro s tickers throws now h
    by_cases ht : tickers.isEmpty <;> by_cases hw : throws <;>
      simp [DataSyncService.syncStockData, h, ht, hw]

/-- C2 witness: the guard theorem applied to concrete states — a trigger
with the flag up is skipped, and a throwing run started with the flag down
ends with the flag down. -/
theorem c2_run_guard_witness :
    DataSyncService.syncStockData ⟨true, none, none⟩ ["IDEA"] false 0
      = (⟨true, none, none⟩, false)
  ∧ (DataSyncService.syncStockData ⟨false, none, none⟩ ["IDEA"] true 0).1.isRunning
      = false :=
  ⟨c2_run_guard.1 ⟨true, none, none⟩ ["IDEA"] false 0 rfl,
   (c2_run_guard.2 ⟨false, none, none⟩ ["IDEA"] true 0 rfl).1⟩

/-- Stored NAV history for the C4 scenario: 365 points in ascending date
order, years 100 through 464, as a fund document would hold them. -/
def c4OldHistory : List AMFIService.NavEntry :=
  (List.range 365).map (fun i => ⟨⟨100 + i, 1, 1⟩, 10⟩)

/-- Incoming batch entry for C4, dated earlier than every stored point. -/
def c4NewEntry : AMFIService.NavEntry := ⟨⟨50, 1, 1⟩, 11⟩

/-- The oldest stored point of `c4OldHistory`. -/
def c4DroppedEntry : AMFIService.NavEntry := ⟨⟨100, 1, 1⟩, 10⟩

/-- The stored fund document of the C4 scenario. -/
def c4Doc : DataSyncService.FundDoc :=
  { schemeCode := "100001", nav := 10, previousNav := 10,
    navDate := ⟨464, 1, 1⟩, navHistory := c4OldHistory, lastUpdated := 0,
    isActive := true }

/-- The fetched fund record of the C4 scenario, whose history batch holds
the single early-dated entry. -/
def c4Fetched : AMFIService.FundData :=
  { schemeCode := "100001", schemeName := "Fund", nav := 11,
    previousNav := 10, navChange := 1, navChangePercent := 10,
    navDate := ⟨50, 1, 1⟩, navHistory := [c4NewEntry], lastUpdated := 0 }

/-- C4: the claim that a merge retains the most recent entries by date
regardless of the order of the incoming batch is false. The `$slice: -365`
truncation is positional: merging one entry dated year 50 into a full
365-point history dated years 100-464 drops the stored year-100 point and
retains the year-50 point, even though the dropped point is more recent
than the retained one. -/
theorem c4_counterexample :
    (DataSyncService.applyFundUpdate c4Fetched 0 c4Doc).navHistory
      = pushEachSlice 365 c4OldHistory [c4NewEntry]
  ∧ c4DroppedEntry ∈ c4Doc.navHistory ++ c4Fetched.navHistory
  ∧ c4DroppedEntry ∉ (DataSyncService.applyFundUpdate c4Fetched 0 c4Doc).navHistory
  ∧ c4NewEntry ∈ (DataSyncService.applyFundUpdate c4Fetched 0 c4Doc).navHistory
  ∧ dateKey c4NewEntry.date < dateKey c4DroppedEntry.date := by decide

/-- C4 amended: the merge keeps the last 365 entries of
stored-then-appended positionally; retention by recency therefore holds
exactly when the concatenated history is in ascending date order, in which
case every entry dropped by the truncation is dated no later than every
retained entry. -/
theorem c4_truncation_keeps_newest (d : AMFIService.FundData) (now : Int)
    (doc : DataSyncService.FundDoc)
    (h : List.Pairwise (fun a b => dateKey a.date ≤ dateKey b.date)
      (doc.navHistory ++ d.navHistory)) :
    ∀ x ∈ (doc.navHistory ++ d.navHistory).take
        ((doc.navHistory ++ d.navHistory).length - 365),
      ∀ y ∈ (DataSyncService.applyFundUpdate d now doc).navHistory,
        dateKey x.date ≤ dateKey y.date := by
  intro x hx y hy
  exact pairwise_take_drop h _ x hx y hy

/-- Fund document for the C4 witness: 366 stored points in ascending date
order, so the merge with an empty batch must drop the single oldest one. -/
def c4WitnessDoc : DataSyncService.FundDoc :=
  { schemeCode := "100002", nav := 10, previousNav := 10,
    navDate := ⟨465, 1, 1⟩,
    navHistory := (List.range 366).map (fun i => ⟨⟨100 + i, 1, 1⟩, 10⟩),
    lastUpdated := 0, isActive := true }

/-- Fetched fund record for the C4 witness, with an empty history batch. -/
def c4WitnessFetched : AMFIService.FundData :=
  { schemeCode := "100002", schemeName := "Fund", nav := 10,
    previousNav := 10, navChange := 0, navChangePercent := 0,
    navDate := ⟨465, 1, 1⟩, navHistory := [], lastUpdated := 0 }

/-- C4 witness: `c4_truncation_keeps_newest` applied to the concrete
366-point ascending history — the dropped year-100 point is dated no later
than the retained year-101 point. -/
theorem c4_truncation_keeps_newest_witness :
    dateKey (⟨⟨100, 1, 1⟩, 10⟩ : AMFIService.NavEntry).date
      ≤ dateKey (⟨⟨101, 1, 1⟩, 10⟩ : AMFIService.NavEntry).date :=
  c4_truncation_keeps_newest c4WitnessFetched 0 c4WitnessDoc (by decide)
    ⟨⟨100, 1, 1⟩, 10⟩ (by decide) ⟨⟨101, 1, 1⟩, 10⟩ (by decide)

/-- Raw NAV entry for the C5 scenario: an unparseable date string together
with a positive value. -/
def c5BadDateInput : AMFIService.NavInput := ⟨some "notadate".data, some 5⟩

/-- C5: the claim that entries with a null or unparseable date never enter
the prepared history is false. The date "notadate" is rejected by both
`convertDDMMYYYYtoISO` and the `new Date(...)` fallback, yet
`parseValidDate` then substitutes the current date, so the entry passes
the positivity filter and the prepared history has length 1 where the
claim requires 0 valid entries. -/
theorem c5_counterexample :
    AMFIService.convertDDMMYYYYtoISO "notadate".data = none
  ∧ jsDateParse "notadate".data = none
  ∧ AMFIService.formatNavHistory ⟨2025, 6, 1⟩ (some [c5BadDateInput])
      = [⟨⟨2025, 6, 1⟩, 5⟩]
  ∧ (AMFIService.formatNavHistory ⟨2025, 6, 1⟩ (some [c5BadDateInput])).length
      = 1 := by decide

/-- C5 amended: the pre-cap filter excludes exactly the entries whose
parsed value is non-positive or NaN (parseFloat NaN is coerced to 0 and
then rejected by the positivity check); date validity excludes nothing,
because an unparseable or missing date falls back to the current date.
The prepared history is as long as the positive-valued portion of the
first 365 raw entries, and every prepared entry has a positive value. -/
theorem c5_value_filter (now : DateYMD) (l : List AMFIService.NavInput) :
    (AMFIService.formatNavHistory now (some l)).length
      = ((l.take 365).filter
          (fun item => decide (0 < item.nav.getD 0))).length
  ∧ ∀ e ∈ AMFIService.formatNavHistory now (some l), 0 < e.nav := by
  constructor
  · simp only [AMFIService.formatNavHistory]
    rw [length_map_filter]
  · intro e he
    simp only [AMFIService.formatNavHistory] at he
    have hp := List.of_mem_filter he
    exact of_decide_eq_true hp

/-- C5 witness: `c5_value_filter` applied to the concrete singleton input
with an unparseable date and the value 5: the prepared history length
equals the count of positive-valued raw entries, namely 1. -/
theorem c5_value_filter_witness :
    (AMFIService.formatNavHistory ⟨2025, 6, 1⟩ (some [c5BadDateInput])).length
      = (([c5BadDateInput].take 365).filter
          (fun item => decide (0 < item.nav.getD 0))).length :=
  (c5_value_filter ⟨2025, 6, 1⟩ [c5BadDateInput]).1

/-- C6: the claim that the mutual-fund sync shares the `isRunning`
single-flight guard is false: `syncMutualFundData` neither checks nor sets
the flag. A mutual-fund trigger firing with the flag up still executes the
reconciliation body, and a run started with the flag down never raises it
for its duration. -/
theorem c6_counterexample :
    (DataSyncService.syncMutualFundData ⟨true, none, none⟩ ["100001"] false 0).2
      = true
  ∧ (DataSyncService.syncMutualFundData ⟨false, none, none⟩ ["100001"] false 0).1.isRunning
      = false := by decide

/-- C6 amended: only the stock-sync path uses the `isRunning` guard. The
mutual-fund sync executes its body on every trigger and leaves the flag
exactly as it found it, on the empty, throwing and successful paths alike;
the stock sync skips its body when the flag is up. (The discovery sync is
likewise guard-independent: it only touches the stock store.) -/
theorem c6_guard_independence :
    (∀ (s : DataSyncService.SchedState) (codes : List String)
        (throws : Bool) (now : Int),
        (DataSyncService.syncMutualFundData s codes throws now).1.isRunning
          = s.isRunning
      ∧ (DataSyncService.syncMutualFundData s codes throws now).2 = true)
  ∧ (∀ (s : DataSyncService.SchedState) (tickers : List String)
        (throws : Bool) (now : Int), s.isRunning = true →
        DataSyncService.syncStockData s tickers throws now = (s, false)) := by
  constructor
  · intro s codes throws now
    by_cases hc : codes.isEmpty <;> by_cases hw : throws <;>
      simp [DataSyncService.syncMutualFundData, hc, hw]
  · intro s tickers throws now h
    simp [DataSyncService.syncStockData, h]

/-- C6 witness: `c6_guard_independence` applied to concrete states — a
mutual-fund run with the guard up still reports its body as executed, and
a stock trigger with the guard up is skipped. -/
theorem c6_guard_independence_witness :
    (DataSyncService.syncMutualFundData ⟨true, none, none⟩ ["100001"] false 0).2
      = true
  ∧ DataSyncService.syncStockData ⟨true, none, none⟩ ["IDEA"] false 0
      = (⟨true, none, none⟩, false) :=
  ⟨(c6_guard_independence.1 ⟨true, none, none⟩ ["100001"] false 0).2,
   c6_guard_independence.2 ⟨true, none, none⟩ ["IDEA"] false 0 rfl⟩

/-- C7: the batch fetch of both adapters is best-effort: the result is
exactly the in-order list of successful single-symbol fetches (the order of
the surviving results follows the symbol list), it never exceeds the
symbol list in length, every returned record comes from a successful fetch
of a listed symbol, and — since both functions total a plain list — no
per-symbol failure is ever propagated to the caller. -/
theorem c7_fetch_many_best_effort :
    (∀ (fetch : String → Except String NSEService.StockData)
        (tickers : List String),
        NSEService.getMultipleStocks fetch tickers
          = tickers.filterMap (NSEService.getStockDataCaught fetch)
      ∧ (NSEService.getMultipleStocks fetch tickers).length ≤ tickers.length
      ∧ ∀ r ∈ NSEService.getMultipleStocks fetch tickers,
          ∃ t ∈ tickers, fetch t = Except.ok r)
  ∧ (∀ (fetch : String → Except String AMFIService.FundData)
        (codes : List String),
        AMFIService.getMultipleMutualFunds fetch codes
          = codes.filterMap (AMFIService.getMutualFundDataCaught fetch)
      ∧ (AMFIService.getMultipleMutualFunds fetch codes).length ≤ codes.length
      ∧ ∀ r ∈ AMFIService.getMultipleMutualFunds fetch codes,
          ∃ t ∈ codes, fetch t = Except.ok r) := by
  constructor
  · intro fetch tickers
    have he : NSEService.getMultipleStocks fetch tickers
        = tickers.filterMap (NSEService.getStockDataCaught fetch) :=
      filterMap_id_map _ _
    refine ⟨he, ?_, ?_⟩
    · rw [he]; exact List.length_filterMap_le _ _
    · intro r hr
      rw [he] at hr
      obtain ⟨t, ht, hg⟩ := List.mem_filterMap.mp hr
      refine ⟨t, ht, ?_⟩
      cases hfetch : fetch t with
      | ok v =>
        simp [NSEService.getStockDataCaught, hfetch] at hg
        rw [hg]
      | error e => simp [NSEService.getStockDataCaught, hfetch] at hg
  · intro fetch codes
    have he : AMFIService.getMultipleMutualFunds fetch codes
        = codes.filterMap (AMFIService.getMutualFundDataCaught fetch) :=
      filterMap_id_map _ _
    refine ⟨he, ?_, ?_⟩
    · rw [he]; exact List.length_filterMap_le _ _
    · intro r hr
      rw [he] at hr
      obtain ⟨t, ht, hg⟩ := List.mem_filterMap.mp hr
      refine ⟨t, ht, ?_⟩
      cases hfetch : fetch t with
      | ok v =>
        simp [AMFIService.getMutualFundDataCaught, hfetch] at hg
        rw [hg]
      | error e => simp [AMFIService.getMutualFundDataCaught, hfetch] at hg

/-- The concrete record the oracle returns for the IDEA ticker in the C7
witness and the C8 broadcast scenario. -/
def ideaStockData : NSEService.StockData :=
  { ticker := "IDEA", name := "Vodafone Idea Limited", currentPrice := 9,
    previousClose := 8, dayChange := 1, dayChangePercent := 13,
    volume := 1000000, high52Week := some 15, low52Week := some 6,
    marketCap := none, lastUpdated := 0, priceHistory := [] }

/-- A fetch oracle that succeeds only for IDEA and fails for every other
ticker, modelling the cycle in which SBIN's upstream fetch failed. -/
def ideaOnlyFetch : String → Except String NSEService.StockData := fun t =>
  if t = "IDEA" then Except.ok ideaStockData
  else Except.error ("Failed to fetch data for " ++ t)

/-- C7 witness: the best-effort theorem applied to the concrete two-symbol
batch ["IDEA", "SBIN"] against `ideaOnlyFetch`, including the existence of
a successful source fetch for the returned IDEA record. -/
theorem c7_fetch_many_best_effort_witness :
    NSEService.getMultipleStocks ideaOnlyFetch ["IDEA", "SBIN"]
      = ["IDEA", "SBIN"].filterMap (NSEService.getStockDataCaught ideaOnlyFetch)
  ∧ ∃ t ∈ (["IDEA", "SBIN"] : List String),
      ideaOnlyFetch t = Except.ok ideaStockData :=
  ⟨(c7_fetch_many_best_effort.1 ideaOnlyFetch ["IDEA", "SBIN"]).1,
   (c7_fetch_many_best_effort.1 ideaOnlyFetch ["IDEA", "SBIN"]).2.2
     ideaStockData (by decide)⟩

/-- The connection of the C8 scenario, subscribed to IDEA and SBIN. -/
def c8Client : WebSocketService.ClientInfo :=
  ⟨"client_1", ["IDEA", "SBIN"], true⟩

/-- The frames sent during the C8 broadcast cycle. -/
def c8Frames : List (String × WebSocketService.WsFrame) :=
  (WebSocketService.fetchAndBroadcastUpdates ideaOnlyFetch [c8Client] [] 0).1

/-- Whether a frame is a price_update whose ticker field equals `t`. -/
def isPriceUpdateFor (t : String) : WebSocketService.WsFrame → Bool
  | WebSocketService.WsFrame.priceUpdate t2 _ _ _ _ => t2 == t
  | _ => false

/-- C8: with one connection subscribed to IDEA and SBIN and a fetch cycle
in which only IDEA's fetch succeeds, the cycle sends exactly one frame —
a price_update for IDEA to that connection — and no frame mentioning
SBIN. -/
theorem c8_broadcast_partial_fetch :
    c8Frames = [("client_1",
        WebSocketService.WsFrame.priceUpdate "IDEA" 9 1 13 1000000)]
  ∧ (c8Frames.filter (fun f => f.1 == "client_1"
        && isPriceUpdateFor "IDEA" f.2)).length = 1
  ∧ (c8Frames.filter (fun f => isPriceUpdateFor "SBIN" f.2)).length = 0 := by
  decide

/-- C9: the adapter converts the day-month-year string "05-03-2024" to the
calendar date 2024-03-05 (5 March 2024), not 2024-05-03 (3 May 2024); the
surrounding `parseValidDate` agrees and does not fall back to the current
date for this input. -/
theorem c9_date_conversion :
    AMFIService.convertDDMMYYYYtoISO "05-03-2024".data = some ⟨2024, 3, 5⟩
  ∧ AMFIService.convertDDMMYYYYtoISO "05-03-2024".data ≠ some ⟨2024, 5, 3⟩
  ∧ AMFIService.parseValidDate ⟨2030, 1, 1⟩ (some "05-03-2024".data)
      = ⟨2024, 3, 5⟩ := by decide

/-- C10: no merge of the sync pipeline or the broadcast path ever creates
a record: all three merge functions preserve the store's key sequence
exactly, and when the fetched key is absent they leave the store untouched;
only the discovery path's `addPennyStockToDatabase` inserts (appending the
new key when absent, and doing nothing when the key already exists). -/
theorem c10_merge_preserves_keys :
    (∀ (db : List DataSyncService.StockDoc) (d : NSEService.StockData)
        (now : Int),
        (DataSyncService.updateStockInDatabase db d now).map
            (fun doc => doc.ticker) = db.map (fun doc => doc.ticker))
  ∧ (∀ (db : List DataSyncService.StockDoc) (d : NSEService.StockData)
        (now : Int),
        d.ticker ∉ db.map (fun doc => doc.ticker) →
          DataSyncService.updateStockInDatabase db d now = db)
  ∧ (∀ (db : List DataSyncService.FundDoc) (d : AMFIService.FundData)
        (now : Int),
        (DataSyncService.updateMutualFundInDatabase db d now).map
            (fun doc => doc.schemeCode) = db.map (fun doc => doc.schemeCode))
  ∧ (∀ (db : List DataSyncService.FundDoc) (d : AMFIService.FundData)
        (now : Int),
        d.schemeCode ∉ db.map (fun doc => doc.schemeCode) →
          DataSyncService.updateMutualFundInDatabase db d now = db)
  ∧ (∀ (db : List DataSyncService.StockDoc) (d : NSEService.StockData)
        (now : Int),
        (WebSocketService.updateStockInDatabase db d now).map
            (fun doc => doc.ticker) = db.map (fun doc => doc.ticker))
  ∧ (∀ (db : List DataSyncService.StockDoc) (d : NSEService.StockData)
        (now : Int),
        d.ticker ∉ db.map (fun doc => doc.ticker) →
          WebSocketService.updateStockInDatabase db d now = db)
  ∧ (∀ (db : List DataSyncService.StockDoc) (d : NSEService.StockData),
        d.ticker ∈ db.map (fun doc => doc.ticker) →
          DataSyncService.addPennyStockToDatabase db d = db)
  ∧ (∀ (db : List DataSyncService.StockDoc) (d : NSEService.StockData),
        d.ticker ∉ db.map (fun doc => doc.ticker) →
          (DataSyncService.addPennyStockToDatabase db d).map
              (fun doc => doc.ticker)
            = db.map (fun doc => doc.ticker) ++ [d.ticker]) := by
  refine ⟨?_, ?_, ?_, ?_, ?_, ?_, ?_, ?_⟩
  · intro db d now
    apply updateFirst_map_eq
    intro a
    rfl
  · intro db d now h
    apply updateFirst_no_match
    intro doc hdoc
    have hne : doc.ticker ≠ d.ticker := by
      intro he
      exact h (he ▸ List.mem_map_of_mem (fun doc => doc.ticker) hdoc)
    exact beq_eq_false_iff_ne.mpr hne
  · intro db d now
    apply updateFirst_map_eq
    intro a
    rfl
  · intro db d now h
    apply updateFirst_no_match
    intro doc hdoc
    have hne : doc.schemeCode ≠ d.schemeCode := by
      intro he
      exact h (he ▸ List.mem_map_of_mem (fun doc => doc.schemeCode) hdoc)
    exact beq_eq_false_iff_ne.mpr hne
  · intro db d now
    apply updateFirst_map_eq
    intro a
    rfl
  · intro db d now h
    apply updateFirst_no_match
    intro doc hdoc
    have hne : doc.ticker ≠ d.ticker := by
      intro he
      exact h (he ▸ List.mem_map_of_mem (fun doc => doc.ticker) hdoc)
    exact beq_eq_false_iff_ne.mpr hne
  · intro db d h
    obtain ⟨doc, hdoc, he⟩ := List.mem_map.mp h
    have hany : db.any (fun x => x.ticker == d.ticker) = true :=
      List.any_eq_true.mpr ⟨doc, hdoc, by simp [he]⟩
    simp [DataSyncService.addPennyStockToDatabase, hany]
  · intro db d h
    have hany : db.any (fun x => x.ticker == d.ticker) = false := by
      rw [List.any_eq_false]
      intro x hx
      have hne : x.ticker ≠ d.ticker := by
        intro he
        exact h (he ▸ List.mem_map_of_mem (fun doc => doc.ticker) hx)
      simp only [beq_iff_eq]
      exact hne
    simp [DataSyncService.addPennyStockToDatabase, hany,
      DataSyncService.docOfStockData]

/-- The stored document of the C10 witness, keyed by a ticker different
from the fetched record's. -/
def c10Doc : DataSyncService.StockDoc :=
  { ticker := "SBIN", currentPrice := 500, previousClose := 495,
    dayChange := 5, dayChangePercent := 1, volume := 500,
    high52Week := none, low52Week := none, marketCap := none,
    priceHistory := [], lastUpdated := 0, isPennyStock := false,
    isActive := true }

/-- C10 witness: merging the fetched IDEA record into a store holding only
SBIN leaves the store unchanged (sync and broadcast paths alike). -/
theorem c10_merge_preserves_keys_witness :
    DataSyncService.updateStockInDatabase [c10Doc] ideaStockData 0 = [c10Doc]
  ∧ WebSocketService.updateStockInDatabase [c10Doc] ideaStockData 0 = [c10Doc] :=
  ⟨c10_merge_preserves_keys.2.1 [c10Doc] ideaStockData 0 (by decide),
   c10_merge_preserves_keys.2.2.2.2.2.1 [c10Doc] ideaStockData 0 (by decide)⟩

/-- C3: every merge caps the stored history: the stock update's
`$push/$each/$slice: -90` leaves at most 90 price points and the fund
update's `$slice: -365` at most 365 NAV points, for every prior history
length and every appended batch size. -/
theorem c3_history_cap :
    (∀ (d : NSEService.StockData) (now : Int)
        (doc : DataSyncService.StockDoc),
        (DataSyncService.applyStockUpdate d now doc).priceHistory.length ≤ 90)
  ∧ (∀ (d : AMFIService.FundData) (now : Int)
        (doc : DataSyncService.FundDoc),
        (DataSyncService.applyFundUpdate d now doc).navHistory.length ≤ 365) := by
  constructor
  · intro d now doc
    simp only [DataSyncService.applyStockUpdate, pushEachSlice,
      List.length_drop, List.length_append]
    omega
  · intro d now doc
    simp only [DataSyncService.applyFundUpdate, pushEachSlice,
      List.length_drop, List.length_append]
    omega
